import Mathlib

/-!
Shallow embedding of the workflow engine of the multimodal debugging assistant
(`backend/services/ai_agent_service.py`): task planning, sequential task
execution with progress accounting, the heuristic code scanners, the result
extractors, the suggestion compiler, and the generative-client adapter.

Conventions of the embedding:
* Python strings are Lean `String`s; all scanning is done over `String.data`
  (a `List Char`) so that every definition evaluates by kernel reduction.
* JSON-decoded Python values (the shapes flowing out of the generative client
  and between tasks) are modelled by the inductive `JVal`.
* Python float arithmetic on `progress` is modelled exactly over `ℚ`.
* Fields of the Python records that no verified property constrains and that
  are either nondeterministic (uuid ids, timestamps) or constant copies of
  workflow-level data (relatedInputs, documentation) are omitted; a comment
  at each record states the omission.
-/

namespace DebugAssist

/-- JSON-like values: the shapes produced by `json.loads` and passed around
as task results. Numbers are modelled as integers (all numeric literals in
the embedded code are integers). -/
inductive JVal where
  | null
  | bool (b : Bool)
  | num (n : Int)
  | str (s : String)
  | arr (xs : List JVal)
  | obj (kvs : List (String × JVal))
  deriving Repr

/-- Test whether a `JVal` is exactly the given string (models Python
comparisons such as `severity == "high"` on JSON-decoded values). -/
def JVal.strEq : JVal → String → Bool
  | .str s, t => s = t
  | _, _ => false

/-- Python truthiness of a JSON-decoded value (`if task.result:`). -/
def JVal.truthy : JVal → Bool
  | .null => false
  | .bool b => b
  | .num n => n ≠ 0
  | .str s => s ≠ ""
  | .arr xs => !xs.isEmpty
  | .obj kvs => !kvs.isEmpty

/-- Key lookup in a JSON object association list (`d[k]` / `k in d`). -/
def jlookup (k : String) : List (String × JVal) → Option JVal
  | [] => none
  | (k', v) :: rest => if k' = k then some v else jlookup k rest

/-- Python `d.get(k, dflt)`. -/
def jget (k : String) (kvs : List (String × JVal)) (dflt : JVal) : JVal :=
  (jlookup k kvs).getD dflt

mutual

/-- Python `str()` of a JSON-decoded value, as used in f-string
interpolation. Strings render as themselves; for the remaining shapes
`str` agrees with `repr`. -/
def pyStr : JVal → String
  | .str s => s
  | v => pyRepr v

/-- Python `repr()` of a JSON-decoded value. -/
def pyRepr : JVal → String
  | .null => "None"
  | .bool true => "True"
  | .bool false => "False"
  | .num n => toString n
  | .str s => "\x27" ++ s ++ "\x27"
  | .arr xs => "[" ++ pyReprList xs ++ "]"
  | .obj kvs => "\x7b" ++ pyReprObj kvs ++ "\x7d"

/-- Comma-joined reprs of the elements of a JSON array. -/
def pyReprList : List JVal → String
  | [] => ""
  | [x] => pyRepr x
  | x :: rest => pyRepr x ++ ", " ++ pyReprList rest

/-- Comma-joined reprs of the entries of a JSON object. -/
def pyReprObj : List (String × JVal) → String
  | [] => ""
  | [(k, v)] => "\x27" ++ k ++ "\x27: " ++ pyRepr v
  | (k, v) :: rest => "\x27" ++ k ++ "\x27: " ++ pyRepr v ++ ", " ++ pyReprObj rest

end

/-! ### Python string primitives over `List Char` -/

/-- `startsWithL pat s` : `pat` is a prefix of `s` (Python `s.startswith(pat)`). -/
def startsWithL : List Char → List Char → Bool
  | [], _ => true
  | _ :: _, [] => false
  | p :: ps, c :: cs => p = c && startsWithL ps cs

/-- Python `pat in s` (substring containment; the empty pattern is contained
in every string, as in Python). -/
def containsL (pat : List Char) : List Char → Bool
  | [] => startsWithL pat []
  | c :: cs => startsWithL pat (c :: cs) || containsL pat cs

/-- Fuel-driven worker for `replaceL`; the fuel is structurally decreasing
so the definition evaluates by kernel reduction. With fuel at least the
length of the scanned list the fuel never runs out, since every step
consumes at least one character. -/
def replaceAux (pat repl : List Char) : Nat → List Char → List Char
  | 0, l => l
  | fuel + 1, l =>
    match l with
    | [] => []
    | c :: cs =>
      if !pat.isEmpty && startsWithL pat l then
        repl ++ replaceAux pat repl fuel (l.drop pat.length)
      else
        c :: replaceAux pat repl fuel cs

/-- Replace every non-overlapping occurrence of `pat` (nonempty) by `repl`,
scanning left to right: Python `s.replace(pat, repl)`. -/
def replaceL (pat repl l : List Char) : List Char :=
  replaceAux pat repl l.length l

/-- Split on a separator character, Python `s.split(sep)` for a one-character
separator: always returns at least one (possibly empty) part. -/
def splitCharL (sep : Char) : List Char → List (List Char)
  | [] => [[]]
  | c :: cs =>
    match splitCharL sep cs with
    | [] => [[c]]
    | h :: t => if c = sep then [] :: h :: t else (c :: h) :: t

/-- Python `s.strip()`: drop whitespace from both ends. -/
def stripL (l : List Char) : List Char :=
  ((l.dropWhile Char.isWhitespace).reverse.dropWhile Char.isWhitespace).reverse

/-- Python `s.startswith(pat)` on `String`s. -/
def pyStartsWith (s pat : String) : Bool :=
  startsWithL pat.data s.data

/-- Python `pat in s` on `String`s. -/
def pyContains (s pat : String) : Bool :=
  containsL pat.data s.data

/-- Python `s.replace(pat, repl)` on `String`s. -/
def pyReplace (s pat repl : String) : String :=
  ⟨replaceL pat.data repl.data s.data⟩

/-- Python `s.strip()` on `String`s. -/
def pyStrip (s : String) : String :=
  ⟨stripL s.data⟩

/-- Python `s.lower()` on `String`s (ASCII case folding, which is all the
embedded code relies on). -/
def pyLower (s : String) : String :=
  ⟨s.data.map Char.toLower⟩

/-- Python `content.split(newline)`. -/
def pySplitLines (s : String) : List String :=
  (splitCharL (Char.ofNat 10) s.data).map fun l => ⟨l⟩

/-- One step of Python `str.title()`: the boolean carries whether the
previous character was alphabetic. -/
def titleStep : List Char → Bool → List Char
  | [], _ => []
  | c :: cs, prevAlpha =>
    (if c.isAlpha then (if prevAlpha then c.toLower else c.toUpper) else c) ::
      titleStep cs c.isAlpha

/-- Python `s.title()`: first letter of every alphabetic run uppercased,
the rest lowercased. -/
def pyTitle (s : String) : String :=
  ⟨titleStep s.data false⟩

/-! ### Heuristic Code Scanner (`_analyze_js_code`, `_analyze_python_code`) -/

/-- One issue flagged by the heuristic code scanners. Field names follow the
keys of the Python dicts built in `_analyze_js_code` / `_analyze_python_code`. -/
structure ScanIssue where
  type : String
  line : Nat
  code : String
  issue : String
  fix : String
  severity : String
  rationale : String
  deriving Repr, DecidableEq

/-- Issues the JavaScript/TypeScript rule set emits for a single line
(`i` is the 1-based line number), in source order: debug trace, loose
binding declaration, loose equality. -/
def jsLineIssues (i : Nat) (line : String) : List ScanIssue :=
  (if pyContains line "console.log" && !(pyStartsWith (pyStrip line) "//") then
    [{ type := "Debug Code"
       line := i
       code := pyStrip line
       issue := "Console.log statement found"
       fix := "Remove console.log or replace with proper logging"
       severity := "low"
       rationale := "Console statements should not remain in production code" }]
  else []) ++
  (if pyStartsWith (pyStrip line) "var " then
    [{ type := "Outdated Syntax"
       line := i
       code := pyStrip line
       issue := "Using \x27var\x27 instead of \x27let\x27 or \x27const\x27"
       fix := pyReplace line "var " (if pyContains line "=" then "const " else "let ")
       severity := "medium"
       rationale := "\x27let\x27 and \x27const\x27 have better scoping rules than \x27var\x27" }]
  else []) ++
  (if pyContains line "==" && !(pyContains line "===") && pyContains line "!=" then
    [{ type := "Type Coercion"
       line := i
       code := pyStrip line
       issue := "Using loose equality (==) instead of strict equality (===)"
       fix := pyReplace (pyReplace line "==" "===") "!=" "!=="
       severity := "medium"
       rationale := "Strict equality prevents unexpected type coercion bugs" }]
  else [])

/-- `_analyze_js_code`: scan every line of the content with the JS rule set. -/
def analyzeJsCode (content : String) : List ScanIssue :=
  ((pySplitLines content).enum.map fun p => jsLineIssues (p.1 + 1) p.2).flatten

/-- The missing-docstring issue emitted for a function-definition line
(source lines 667-675); the suggested fix appends a docstring stub to the
unstripped line. -/
def missingDocIssue (i : Nat) (line : String) : ScanIssue :=
  { type := "Documentation"
    line := i
    code := pyStrip line
    issue := "Function missing docstring"
    fix := line ++ "\n    \"\"\"Brief description of what this function does.\"\"\""
    severity := "low"
    rationale := "Docstrings improve code maintainability and help other developers" }

/-- Issues the Python rule set emits for a single line. `nextLine` is the
following line, or the empty string when the line is the last one
(`lines[i] if i < len(lines) else ""` in the source). -/
def pyLineIssues (i : Nat) (line nextLine : String) : List ScanIssue :=
  (if pyStartsWith (pyStrip line) "except:" || pyStrip line == "except:" then
    [{ type := "Exception Handling"
       line := i
       code := pyStrip line
       issue := "Bare except clause catches all exceptions"
       -- the source conditional picks the same literal in both branches
       fix := if pyContains line ":" then "except Exception as e:" else "except Exception as e:"
       severity := "high"
       rationale := "Bare except can hide important errors and make debugging difficult" }]
  else []) ++
  (if pyStartsWith (pyStrip line) "print(" && !(pyStartsWith (pyStrip line) "#") then
    [{ type := "Debug Code"
       line := i
       code := pyStrip line
       issue := "Print statement found - might be debug code"
       fix := "Consider using logging instead: import logging; logging.info(...)"
       severity := "low"
       rationale := "Use proper logging instead of print statements for better control" }]
  else []) ++
  (if pyStartsWith (pyStrip line) "def " && pyContains line ":" then
    (if !(pyStartsWith (pyStrip nextLine) "\"\"\"") && !(pyStartsWith (pyStrip nextLine) "\x27\x27\x27") then
      [missingDocIssue i line]
    else [])
  else [])

/-- `_analyze_python_code` over an already-split line list: the loop
`for i, line in enumerate(lines, 1)` with
`next_line = lines[i] if i < len(lines) else ""`. -/
def analyzePythonLines (lines : List String) : List ScanIssue :=
  ((List.range lines.length).map fun j =>
    pyLineIssues (j + 1) (lines.getD j "") (lines.getD (j + 1) "")).flatten

/-- `_analyze_python_code`: scan every line of the content with the Python
rule set. -/
def analyzePythonCode (content : String) : List ScanIssue :=
  analyzePythonLines (pySplitLines content)

/-! ### Result Extractors (`_extract_error_details`, `_extract_code_issues`)

The extractors consume JSON-decoded task results. Python stores the raw
looked-up values in the fact dicts and stringifies them later inside
f-strings; since every downstream use of the string-valued fields is such
an interpolation, the embedding applies `pyStr` at construction time.
Exceptions raised mid-loop on malformed shapes are caught by the
enclosing `except`, which returns the facts accumulated so far; loops
below model that by returning the partial list together with a success
flag. -/

/-- One fact produced by the error-detail extractor. Field names follow the
keys of the dicts built in `_extract_error_details`; `type` and `severity`
hold the raw JSON values, as in the source. -/
structure ErrFact where
  type : JVal
  severity : JVal
  description : String
  rationale : String
  confidence : Int
  location : String
  steps : List String
  deriving Repr

/-- The single generic fact emitted for a raw-text result mentioning an
error (source lines 714-726). -/
def runtimeErrorFact : ErrFact :=
  { type := JVal.str "Runtime Error"
    severity := JVal.str "high"
    description := "Error detected in the provided content"
    rationale := "Based on error patterns found in the text"
    confidence := 75
    location := "Check the provided logs or stack trace"
    steps := ["Review the error message carefully",
              "Identify the root cause",
              "Apply appropriate fixes"] }

/-- The fact built for the `i`-th entry of `error_types`, with the
index-aligned severity and root cause defaulting to `"medium"` and
`"Unknown cause"` when the parallel lists are too short. -/
def errFactAt (svs rcs : List JVal) (i : Nat) (et : JVal) : ErrFact :=
  let severity := svs.getD i (JVal.str "medium")
  let cause := rcs.getD i (JVal.str "Unknown cause")
  { type := et
    severity := severity
    description := "Found " ++ pyStr et ++ " error"
    rationale := "Root cause: " ++ pyStr cause
    confidence := if severity.strEq "critical" || severity.strEq "high" then 85 else 70
    location := "Check the error trace or logs"
    steps := ["Investigate " ++ pyStr et ++ " in the codebase",
              "Address the root cause: " ++ pyStr cause,
              "Test the fix thoroughly"] }

/-- `_extract_error_details`: facts from a structured `error_types`
response, or one generic runtime-error fact from a raw-text response
mentioning an error. The loop enumerates the `error_types` value the way
Python does: a JSON array element-wise, a string per character (each a
one-character string), a dict per key; a non-iterable value raises at
`enumerate`, the exception is caught by the enclosing handler and the
empty list returned. Parallel severity and root-cause values that are
not lists are modelled by their defaults (in the source exotic shapes
there can raise inside the same caught scope; no verified property
depends on the fact values at such inputs). Non-dict inputs and a
non-string raw response likewise yield the empty list through the same
catch. -/
def extractErrorDetails : JVal → List ErrFact
  | JVal.obj kvs =>
    match jlookup "error_types" kvs with
    | some et =>
      let svs := match jlookup "severity_levels" kvs with
        | some (JVal.arr l) => l
        | _ => []
      let rcs := match jlookup "root_causes" kvs with
        | some (JVal.arr l) => l
        | _ => []
      let items : List JVal := match et with
        | JVal.arr xs => xs
        | JVal.str s => s.data.map fun c => JVal.str ⟨[c]⟩
        | JVal.obj okvs => okvs.map fun kv => JVal.str kv.1
        | _ => []
      items.enum.map fun p => errFactAt svs rcs p.1 p.2
    | none =>
      match jlookup "raw_response" kvs with
      | some (JVal.str s) =>
        if pyContains (pyLower s) "error" || pyContains (pyLower s) "exception" then
          [runtimeErrorFact]
        else []
      | some _ => []
      | none => []
  | _ => []

/-- One fact produced by the code-issue extractor. Field names follow the
keys of the dicts built in `_extract_code_issues`; `line_number` and
`severity` are optional because the legacy-format branch builds dicts
without those keys. `confidence` and `steps` hold raw JSON values
because the legacy-format branch stores whatever the looked-up values
were; bad shapes there raise later, in the suggestion-construction
stage, not at extraction. -/
structure CodeFact where
  category : String
  description : String
  confidence : JVal
  code_snippet : Option String
  suggested_improvement : Option String
  rationale : String
  line_number : Option JVal
  severity : Option JVal
  steps : JVal
  deriving Repr

/-- Fact for one entry of `direct_issues` (source lines 742-757). -/
def directFact (kvs : List (String × JVal)) : CodeFact :=
  { category := pyStr (jget "type" kvs (JVal.str "Code Issue"))
    description := "Line " ++ pyStr (jget "line" kvs (JVal.str "?")) ++ ": " ++
      pyStr (jget "issue" kvs (JVal.str "Code issue found"))
    confidence := JVal.num (if (jget "severity" kvs JVal.null).strEq "high" then 90 else 75)
    code_snippet := some (pyStr (jget "code" kvs (JVal.str "")))
    suggested_improvement := some (pyStr (jget "fix" kvs (JVal.str "")))
    rationale := pyStr (jget "rationale" kvs (JVal.str "Code improvement recommended"))
    line_number := jlookup "line" kvs
    severity := some (jget "severity" kvs (JVal.str "medium"))
    steps := JVal.arr
      [JVal.str ("Go to line " ++ pyStr (jget "line" kvs (JVal.str "?")) ++ " in your code"),
       JVal.str ("Replace: " ++ pyStr (jget "code" kvs (JVal.str "the problematic code"))),
       JVal.str ("With: " ++ pyStr (jget "fix" kvs (JVal.str "the suggested fix"))),
       JVal.str "Test to ensure the change works correctly"] }

/-- Map the entries of `direct_issues`; a non-dict entry makes the Python
loop raise, so the facts accumulated before it are kept and the flag
reports that the extractor aborted there. -/
def directFacts : List JVal → List CodeFact × Bool
  | [] => ([], true)
  | JVal.obj kvs :: rest =>
    let r := directFacts rest
    (directFact kvs :: r.1, r.2)
  | _ :: _ => ([], false)

/-- Fact for one entry of a direct-array generative response (source lines
767-782). In the source this mapping is unreachable: the check
`isinstance(ai_analysis, list)` sits inside an `isinstance(ai_analysis,
dict)` guard, so no value reaches it. It is embedded for reference. -/
def aiArrayFact (kvs : List (String × JVal)) : CodeFact :=
  { category := pyTitle (pyReplace (pyStr (jget "type" kvs (JVal.str "AI Analysis"))) "_" " ")
    description := pyStr (jget "description" kvs (JVal.str "AI identified issue"))
    confidence := JVal.num 85
    code_snippet := some (pyStr (jget "original_code" kvs (JVal.str "")))
    suggested_improvement := some (pyStr (jget "fixed_code" kvs (JVal.str "")))
    rationale := pyStr (jget "rationale" kvs (JVal.str "Based on AI analysis"))
    line_number := jlookup "line" kvs
    severity := some (jget "severity" kvs (JVal.str "medium"))
    steps := JVal.arr
      [JVal.str ("Locate the issue: " ++ pyStr (jget "description" kvs (JVal.str "the problem"))),
       JVal.str ("Replace: " ++ pyStr (jget "original_code" kvs (JVal.str "problematic code"))),
       JVal.str ("With: " ++ pyStr (jget "fixed_code" kvs (JVal.str "improved code"))),
       JVal.str "Test the changes thoroughly"] }

/-- Fact for one entry of a legacy category list (source lines 897-909).
The built dict has no line-number or severity key; the confidence and
steps values are stored raw, exactly as the looked-up JSON values (with
the literal defaults of the source), so that ill-shaped values raise
later in the suggestion-construction stage as they do in the program. -/
def legacyFactAt (category : String) (kvs : List (String × JVal)) : CodeFact :=
  { category := pyTitle (pyReplace category "_" " ")
    description := pyStr (jget "description" kvs (JVal.str ("Found " ++ category ++ " issue")))
    confidence := jget "confidence" kvs (JVal.num 80)
    code_snippet := (jlookup "code_snippet" kvs).map pyStr
    suggested_improvement := (jlookup "suggested_fix" kvs).map pyStr
    rationale := pyStr (jget "rationale" kvs
      (JVal.str ("This addresses a " ++ category ++ " in your code")))
    line_number := none
    severity := none
    steps := jget "steps" kvs
      (JVal.arr [JVal.str ("Locate the " ++ category ++ " issue"),
                 JVal.str "Apply the suggested improvement",
                 JVal.str "Verify the code works correctly"]) }

/-- Map one legacy category list, aborting (with partial facts) at a
non-dict entry, as the Python loop would. -/
def legacyListFacts (category : String) : List JVal → List CodeFact × Bool
  | [] => ([], true)
  | JVal.obj kvs :: rest =>
    let r := legacyListFacts category rest
    (legacyFactAt category kvs :: r.1, r.2)
  | _ :: _ => ([], false)

/-- The legacy category loop (source lines 889-909): categories whose value
is present and a list contribute their facts; a raise mid-list stops the
whole extractor with the facts accumulated so far. -/
def legacyCatFacts (kvs : List (String × JVal)) : List String → List CodeFact
  | [] => []
  | cat :: cats =>
    match jlookup cat kvs with
    | some (JVal.arr xs) =>
      let r := legacyListFacts cat xs
      if r.2 then r.1 ++ legacyCatFacts kvs cats else r.1
    | some _ => legacyCatFacts kvs cats
    | none => legacyCatFacts kvs cats

/-- `_extract_code_issues`. The free-text branch (parsing a JSON array out
of the raw generative text, else the numbered-lines heuristic, else one
generic fact — source lines 784-884) is abstracted by the `rawFacts`
parameter; every claim settled against this definition holds for all
values of that parameter or does not depend on it. -/
def extractCodeIssues (rawFacts : String → List CodeFact) : JVal → List CodeFact
  | JVal.obj kvs =>
    match jlookup "direct_issues" kvs with
    | some di =>
      let dr := match di with
        | JVal.arr xs => directFacts xs
        | _ => ([], false)
      if !dr.2 then dr.1
      else
        dr.1 ++
          (match jget "ai_analysis" kvs (JVal.obj []) with
          | JVal.obj akvs =>
            -- Inside this `isinstance(ai_analysis, dict)` guard the source
            -- checks `isinstance(ai_analysis, list)`, which can never hold;
            -- the `aiArrayFact` mapping is therefore dead and control goes
            -- to the `raw_response` check.
            match jlookup "raw_response" akvs with
            | some (JVal.str text) => rawFacts text
            | some _ => []
            | none => []
          | JVal.arr _ => []
          -- a direct array falls through both branches of the source
          | _ => [])
    | none => legacyCatFacts kvs
        ["syntax_errors", "logic_errors", "performance_issues",
         "security_vulnerabilities", "best_practice_violations"]
  | _ => []

/-! ### Suggestion Compiler (`_compile_suggestions`) -/

/-- The four suggestion kinds of `SuggestionType` in `models/schemas.py`. -/
inductive SuggestionType where
  | code_fix
  | configuration
  | dependency
  | architecture
  deriving Repr, DecidableEq

/-- A compiled fix suggestion. Field names follow `FixSuggestion` in
`models/schemas.py`. Omitted: `id` (a fresh uuid), `documentation` (always
the empty list), `relatedInputs` (always the full workflow input-id list). -/
structure FixSuggestion where
  title : String
  description : String
  confidence : Int
  type : SuggestionType
  originalCode : Option String
  suggestedCode : Option String
  steps : List String
  rationale : String
  agent : String
  deriving Repr, DecidableEq

/-- Suggestion built from one error fact (source lines 424-441). The
`code_snippet` and `suggested_fix` keys are never set by the error-detail
extractor, so `originalCode` and `suggestedCode` are `None`. -/
def errSuggestion (e : ErrFact) : FixSuggestion :=
  { title := "Fix " ++ pyStr e.type ++ " Issue"
    description := e.description
    confidence := max 70 (min 95 e.confidence)
    type := SuggestionType.code_fix
    originalCode := none
    suggestedCode := none
    steps := e.steps
    rationale := e.rationale
    agent := "Error Analysis Agent" }

/-- The clamp `max(60, min(90, confidence))` of the code-suggestion
construction (source line 450) on a raw JSON confidence value: numbers
clamp, booleans are Python ints (True is 1, False is 0) and clamp too,
and any other shape raises a TypeError inside `min`. -/
def clampCodeConfidence : JVal → Except String Int
  | JVal.num n => Except.ok (max 60 (min 90 n))
  | JVal.bool b => Except.ok (max 60 (min 90 (if b then 1 else 0)))
  | _ => Except.error "TypeError: int and non-int are not comparable in min"

/-- Validation of a raw steps value against the suggestion record type
(`steps: List[str]`): a JSON array whose elements are strings (numbers
and booleans are coerced to their textual form by the validation layer)
passes; any other shape raises a validation error. -/
def validateSteps : JVal → Except String (List String)
  | JVal.arr xs =>
    xs.mapM fun v =>
      match v with
      | JVal.str s => Except.ok s
      | JVal.num n => Except.ok (toString n)
      | JVal.bool b => Except.ok (if b then "True" else "False")
      | _ => Except.error "ValidationError: str type expected"
  | _ => Except.error "ValidationError: value is not a valid list"

/-- Suggestion built from one code-issue fact (source lines 445-463); the
construction raises on an ill-shaped raw confidence (inside the clamp) or
steps value (at record validation), and the exception escapes the
compiler. -/
def codeSuggestion (c : CodeFact) : Except String FixSuggestion :=
  match clampCodeConfidence c.confidence with
  | Except.error e => Except.error e
  | Except.ok conf =>
    match validateSteps c.steps with
    | Except.error e => Except.error e
    | Except.ok steps =>
      Except.ok
        { title := "Improve " ++ c.category
          description := c.description
          confidence := conf
          type := SuggestionType.code_fix
          originalCode := c.code_snippet
          suggestedCode := c.suggested_improvement
          steps := steps
          rationale := c.rationale
          agent := "Code Analysis Agent" }

/-- Find the earliest closing double star in the list: returns the content
before it and the remainder after it. -/
def findStarSplit : List Char → Option (List Char × List Char)
  | [] => none
  | '*' :: '*' :: rest => some ([], rest)
  | c :: rest => (findStarSplit rest).map fun p => (c :: p.1, p.2)

/-- Fuel-driven worker removing every non-greedy double-star pair, keeping
the enclosed text: the regex substitution on emphasis markers at source
line 506. Fuel at least the length of the list never runs out. -/
def removeStarPairsAux : Nat → List Char → List Char
  | 0, l => l
  | fuel + 1, l =>
    match l with
    | [] => []
    | '*' :: '*' :: rest =>
      match findStarSplit rest with
      | some p => p.1 ++ removeStarPairsAux fuel p.2
      | none => '*' :: '*' :: rest
    | c :: rest => c :: removeStarPairsAux fuel rest

/-- Remove every double-star emphasis pair, keeping the enclosed text. -/
def removeStarPairs (l : List Char) : List Char :=
  removeStarPairsAux l.length l

/-- The backtick character, used by the code-span extraction. -/
def backtickChar : Char := Char.ofNat 96

/-- Fuel-driven extraction of all nonempty backtick-delimited spans,
left to right: the regex findall at source line 520. -/
def backtickSpansAux : Nat → List Char → List (List Char)
  | 0, _ => []
  | _ + 1, [] => []
  | fuel + 1, c :: cs =>
    if c = backtickChar then
      let content := cs.takeWhile (· ≠ backtickChar)
      if content.isEmpty then backtickSpansAux fuel cs
      else
        match cs.drop content.length with
        | _ :: after => content :: backtickSpansAux fuel after
        | [] => []
    else backtickSpansAux fuel cs

/-- All nonempty backtick-delimited code spans of a string. -/
def backtickSpans (s : String) : List (List Char) :=
  backtickSpansAux s.data.length s.data

/-- Key-point extraction for one line of a raw generative response
(source lines 500-508): strip, require a numbered or bulleted start and
length above 10, strip the leading marker run, remove emphasis pairs,
require more than 5 remaining characters. -/
def keyPointOfLine (line : String) : Option String :=
  let l := pyStrip line
  if (["1.", "2.", "3.", "4.", "5.", "-", "*"].any fun p => pyStartsWith l p) &&
      l.data.length > 10 then
    let cl := l.data.dropWhile fun c =>
      c.isDigit || c = '.' || c = '-' || c = '*' || c.isWhitespace
    let cl := if containsL ['*', '*'] cl then removeStarPairs cl else cl
    if !cl.isEmpty && cl.length > 5 then some ⟨cl⟩ else none
  else none

/-- Join a list of strings with a dot-space separator. -/
def joinDot : List String → String
  | [] => ""
  | [x] => x
  | x :: rest => x ++ ". " ++ joinDot rest

/-- The single suggestion synthesized from the first sufficiently long raw
generative response (source lines 487-555). `tt` is the task type used in
the agent attribution. -/
def mkRawSuggestion (tt raw : String) : FixSuggestion :=
  let kps := (pySplitLines raw).filterMap keyPointOfLine
  let descr :=
    if kps.isEmpty then "AI analysis found areas for improvement in your code."
    else
      joinDot (kps.take 3) ++ "." ++
        (if kps.length > 3 then
          " Plus " ++ toString (kps.length - 3) ++ " more improvement" ++
            (if kps.length > 4 then "s" else "") ++ "."
        else "")
  let spans := backtickSpans raw
  let oc : List Char × List Char :=
    match spans with
    | m0 :: m1 :: _ => (m0, m1)
    | [m0] =>
      if containsL ['=', '='] m0 then (m0, replaceL ['=', '='] ['=', '=', '='] m0)
      else ([], [])
    | [] => ([], [])
  let baseSteps := ["Review the specific issues identified by AI analysis",
                    "Focus on the most critical improvements first",
                    "Apply the suggested code changes",
                    "Test thoroughly to ensure functionality is preserved"]
  let steps :=
    if !oc.1.isEmpty && !oc.2.isEmpty then
      baseSteps.take 1 ++
        ["Replace \x27" ++ (⟨oc.1⟩ : String) ++ "\x27 with \x27" ++ (⟨oc.2⟩ : String) ++ "\x27"] ++
        baseSteps.drop 1
    else baseSteps
  { title := "Code Quality Improvements"
    description := descr
    confidence := 80
    type := SuggestionType.code_fix
    originalCode := some ⟨oc.1⟩
    suggestedCode := some ⟨oc.2⟩
    steps := steps
    rationale := "Based on AI code analysis"
    agent := "AI " ++ pyTitle (pyReplace tt "_" " ") ++ " Agent" }

/-- The terminal fallback suggestion (source lines 560-576). -/
def fallbackSuggestion : FixSuggestion :=
  { title := "AI Analysis Unavailable"
    description := "Unable to connect to AI analysis service. Please check your configuration."
    confidence := 30
    type := SuggestionType.configuration
    originalCode := none
    suggestedCode := none
    steps := ["Check internet connection",
              "Verify API configuration",
              "Retry the analysis",
              "Contact support if issues persist"]
    rationale := "AI analysis service is currently unavailable."
    agent := "System" }

/-- Task status values of `TaskStatus` in `models/schemas.py`. -/
inductive TaskStatus where
  | pending
  | running
  | completed
  | failed
  deriving Repr, DecidableEq

/-- Workflow status values of `WorkflowStatus` in `models/schemas.py`. -/
inductive WorkflowStatus where
  | analyzing
  | completed
  | failed
  deriving Repr, DecidableEq

/-- A task as it stands after execution: type, final status, result (set
only on success) and error (set only on failure). Omitted: id, input
payload, timestamp. -/
structure ExecTask where
  agentId : String
  type : String
  status : TaskStatus
  result : Option JVal
  error : Option String
  deriving Repr

/-- Python truthiness of `task.result` (an absent result is falsy). -/
def truthyResult : Option JVal → Bool
  | none => false
  | some v => v.truthy

/-- The loop over raw per-task results (source lines 474-555): the first
completed task whose generative raw response is truthy and longer than
50 yields one synthesized suggestion, after which the loop breaks. The
raw response is kept as the looked-up value, as in the source: a truthy
string longer than 50 builds the suggestion; a truthy number or boolean
raises a TypeError at `len`; a truthy array or object passes `len` but
raises an AttributeError at `.split` when longer than 50; falsy values
and shorter sized values just skip to the next entry. The exception
escapes the compiler. -/
def rawSuggestionLoop : List (String × JVal) → Except String (Option FixSuggestion)
  | [] => Except.ok none
  | (tt, JVal.obj kvs) :: rest =>
    let ai := jget "ai_analysis" kvs (JVal.obj [])
    let raw := match ai with
      | JVal.obj akvs => jget "raw_response" akvs (JVal.str "")
      | _ => JVal.str ""
    if raw.truthy then
      match raw with
      | JVal.str s =>
        if s.data.length > 50 then Except.ok (some (mkRawSuggestion tt s))
        else rawSuggestionLoop rest
      | JVal.arr xs =>
        if xs.length > 50 then Except.error "AttributeError: object has no attribute split"
        else rawSuggestionLoop rest
      | JVal.obj okvs =>
        if okvs.length > 50 then Except.error "AttributeError: object has no attribute split"
        else rawSuggestionLoop rest
      | _ => Except.error "TypeError: object has no len()"
    else rawSuggestionLoop rest
  | (_, _) :: rest => rawSuggestionLoop rest

/-- `_compile_suggestions` over the executed task list. Stages: facts from
completed tasks, up to 3 error suggestions, up to 2 code suggestions, one
raw-response suggestion when both fact stages were empty and some
completed result exists, and the terminal fallback when the raw scan also
found nothing. The fallback stage sits inside the branch requiring a
non-empty completed-result list. The function has no handler of its own:
an exception raised while constructing a code suggestion or while probing
a raw response propagates to the caller of the executor (modelled by the
error case). -/
def compileSuggestions (rawFacts : String → List CodeFact)
    (tasks : List ExecTask) : Except String (List FixSuggestion) :=
  let comp := tasks.filter fun t =>
    t.status == TaskStatus.completed && truthyResult t.result
  let errorsFound := comp.flatMap fun t =>
    if t.type == "error_extraction" then extractErrorDetails (t.result.getD JVal.null) else []
  let codeIssues := comp.flatMap fun t =>
    if t.type == "code_analysis" then extractCodeIssues rawFacts (t.result.getD JVal.null) else []
  let analysisContent := comp.map fun t => (t.type, t.result.getD JVal.null)
  match (codeIssues.take 2).mapM codeSuggestion with
  | Except.error e => Except.error e
  | Except.ok codeSuggs =>
    let suggestions := (errorsFound.take 3).map errSuggestion ++ codeSuggs
    if suggestions.isEmpty && !analysisContent.isEmpty then
      match rawSuggestionLoop analysisContent with
      | Except.error e => Except.error e
      | Except.ok (some s) => Except.ok [s]
      | Except.ok none => Except.ok [fallbackSuggestion]
    else Except.ok suggestions

/-! ### Task Planner (`_plan_tasks`) -/

/-- The five input kinds of `InputType` in `models/schemas.py`; the model
validates that every accepted input carries one of them. -/
inductive InputType where
  | code
  | logs
  | screenshot
  | error_trace
  | diagram
  deriving Repr, DecidableEq

/-- A debugging input. Omitted: metadata, timestamp. -/
structure DebugInput where
  id : String
  type : InputType
  content : String
  deriving Repr, DecidableEq

/-- A planned task. Omitted: input payload (one input dict or the full
input list, which no verified property constrains), timestamp. -/
structure AgentTask where
  id : String
  agentId : String
  type : String
  status : TaskStatus
  deriving Repr, DecidableEq

/-- Build a pending task with the counter-derived id. -/
def mkTask (k : Nat) (agent tt : String) : AgentTask :=
  { id := "task-" ++ toString k
    agentId := agent
    type := tt
    status := TaskStatus.pending }

/-- The per-input routing loop of `_plan_tasks` with its counter (seeded at
1 by the caller); the counter advances for every input. With the input
kinds restricted to `InputType`, every input matches one routing arm. -/
def planInputTasks : List DebugInput → Nat → List AgentTask × Nat
  | [], k => ([], k)
  | inp :: rest, k =>
    let t := match inp.type with
      | InputType.logs => mkTask k "error-extractor" "error_extraction"
      | InputType.error_trace => mkTask k "error-extractor" "error_extraction"
      | InputType.code => mkTask k "code-analyzer" "code_analysis"
      | InputType.screenshot => mkTask k "multimodal-analyzer" "multimodal_analysis"
      | InputType.diagram => mkTask k "multimodal-analyzer" "multimodal_analysis"
    let r := planInputTasks rest (k + 1)
    (t :: r.1, r.2)

/-- `_plan_tasks`: per-input tasks, a documentation-search task when at
least one per-input task exists, and always a final fix-generation task. -/
def planTasks (inputs : List DebugInput) : List AgentTask :=
  let r := planInputTasks inputs 1
  let r2 :=
    if r.1.isEmpty then r
    else (r.1 ++ [mkTask r.2 "doc-retriever" "documentation_search"], r.2 + 1)
  r2.1 ++ [mkTask r2.2 "fix-generator" "fix_generation"]

/-! ### Workflow Executor (`_execute_workflow`) -/

/-- What a task handler does when invoked: return a result value or raise
an exception with the given stringified message. The handlers perform
network calls, so their outcomes enter the model as an oracle paired with
each task. -/
inductive HandlerOutcome where
  | ok (v : JVal)
  | raises (msg : String)
  deriving Repr

/-- Execute one task against its handler outcome: success stores the result
and marks the task completed; an exception marks it failed and stores the
stringified error, with no result. -/
def runTask (t : AgentTask) (o : HandlerOutcome) : ExecTask :=
  match o with
  | HandlerOutcome.ok v =>
    { agentId := t.agentId, type := t.type, status := TaskStatus.completed
      result := some v, error := none }
  | HandlerOutcome.raises m =>
    { agentId := t.agentId, type := t.type, status := TaskStatus.failed
      result := none, error := some m }

/-- The task loop of `_execute_workflow`: processes tasks in order,
counting every processed task (success or failure) and recomputing
`progress = (completed_tasks / total_tasks) * 100` after each. Returns the
executed tasks, the processed count, and the final progress. -/
def execLoop (total : Nat) :
    List (AgentTask × HandlerOutcome) → Nat → ℚ → List ExecTask × Nat × ℚ
  | [], completed, prog => ([], completed, prog)
  | (t, o) :: rest, completed, _prog =>
    let done := completed + 1
    let prog' := ((done : ℚ) / (total : ℚ)) * 100
    let r := execLoop total rest done prog'
    (runTask t o :: r.1, r.2)

/-- The workflow state at the end of `_execute_workflow`. -/
structure WorkflowResult where
  tasks : List ExecTask
  suggestions : List FixSuggestion
  status : WorkflowStatus
  progress : ℚ

/-- `_execute_workflow` together with the surrounding catch of
`start_workflow`: run every task against its outcome, then compile
suggestions. When the compiler returns normally the workflow is set to
completed; when it raises, the exception escapes the per-task handling
(the compiler call at line 187 is outside the loop try) and the caller at
lines 88-92 marks the workflow failed at progress 100, the suggestion
list keeping its initial empty value. -/
def executeWorkflow (rawFacts : String → List CodeFact)
    (pairs : List (AgentTask × HandlerOutcome)) : WorkflowResult :=
  let r := execLoop pairs.length pairs 0 0
  match compileSuggestions rawFacts r.1 with
  | Except.ok sugg =>
    { tasks := r.1
      suggestions := sugg
      status := WorkflowStatus.completed
      progress := r.2.2 }
  | Except.error _ =>
    { tasks := r.1
      suggestions := []
      status := WorkflowStatus.failed
      progress := 100 }

/-- The workflow progress after the executor has processed the first `k`
tasks of the run (0 is the initial progress set at workflow creation). -/
def progressAfter (pairs : List (AgentTask × HandlerOutcome)) (k : Nat) : ℚ :=
  (execLoop pairs.length (pairs.take k) 0 0).2.2

/-! ### Generative Client Adapter (`_call_gemini_api`) -/

/-- The observable outcome of the single HTTP attempt inside
`_call_gemini_api`: a 200 response with its extracted candidate text, a
non-200 response with its status and body, or an exception raised by the
transport (caught by the enclosing handler). -/
inductive ApiOutcome where
  | httpOk (text : String)
  | httpErr (status : Nat) (body : String)
  | exn (msg : String)
  deriving Repr

/-- `_call_gemini_api` as a function of the HTTP outcome and of the JSON
parser (`json.loads`, abstracted as a partial function): the decoded value
on parseable 200 text, the tagged raw-text wrapper otherwise, and tagged
error wrappers for non-200 statuses and transport exceptions. Total by
construction: every failure mode is a return value. -/
def callGeminiApi (parseJson : String → Option JVal) : ApiOutcome → JVal
  | ApiOutcome.httpOk text =>
    match parseJson text with
    | some v => v
    | none => JVal.obj [("raw_response", JVal.str text), ("parsed", JVal.bool false)]
  | ApiOutcome.httpErr status body =>
    JVal.obj [("error", JVal.str ("API call failed: " ++ toString status)),
              ("details", JVal.str body)]
  | ApiOutcome.exn msg =>
    JVal.obj [("error", JVal.str ("Failed to call Gemini API: " ++ msg))]

/-- A structured error-extraction result with the three parallel lists the
error-detail extractor reads, used to state properties of the structured
branch. -/
def mkErrAnalysis (ets svs rcs : List JVal) : JVal :=
  JVal.obj [("error_types", JVal.arr ets),
            ("severity_levels", JVal.arr svs),
            ("root_causes", JVal.arr rcs)]

/-- Fixture: a planned code-analysis task. -/
def exCodeTask : AgentTask :=
  { id := "task-1", agentId := "code-analyzer", type := "code_analysis",
    status := TaskStatus.pending }

/-- Fixture: a planned fix-generation task. -/
def exFixTask : AgentTask :=
  { id := "task-2", agentId := "fix-generator", type := "fix_generation",
    status := TaskStatus.pending }

/-- Fixture: a planned error-extraction task. -/
def exErrTask : AgentTask :=
  { id := "task-1", agentId := "error-extractor", type := "error_extraction",
    status := TaskStatus.pending }

/-- Fixture: a two-task run whose second handler raises. -/
def exPairs : List (AgentTask × HandlerOutcome) :=
  [(exCodeTask, HandlerOutcome.ok (JVal.str "ok")),
   (exFixTask, HandlerOutcome.raises "kaput")]

/-- Fixture: a two-task run in which every handler raises. -/
def exAllFailPairs : List (AgentTask × HandlerOutcome) :=
  [(exErrTask, HandlerOutcome.raises "boom"),
   (exFixTask, HandlerOutcome.raises "boom")]

/-- Every task emitted by the per-input routing loop has one of the three
per-input task types. -/
theorem planInputTasks_type_mem (inputs : List DebugInput) (k : Nat) :
    ∀ t ∈ (planInputTasks inputs k).1,
      t.type = "error_extraction" ∨ t.type = "code_analysis" ∨
        t.type = "multimodal_analysis" := by
  induction inputs generalizing k with
  | nil => simp [planInputTasks]
  | cons inp rest ih =>
    intro t ht
    cases htype : inp.type <;>
    · simp only [planInputTasks, htype, List.mem_cons] at ht
      rcases ht with h | h
      · subst h
        simp [mkTask]
      · exact ih (k + 1) t h

/-- The routing loop emits exactly one task per input. -/
theorem planInputTasks_length (inputs : List DebugInput) (k : Nat) :
    (planInputTasks inputs k).1.length = inputs.length := by
  induction inputs generalizing k with
  | nil => simp [planInputTasks]
  | cons inp rest ih => simp [planInputTasks, ih]

/-- The progress after the loop: unchanged on an empty list, else the
processed count over the total, times 100. -/
theorem execLoop_prog (pairs : List (AgentTask × HandlerOutcome)) (total c : Nat) (p : ℚ) :
    (execLoop total pairs c p).2.2 =
      if pairs.isEmpty then p else ((c : ℚ) + pairs.length) / (total : ℚ) * 100 := by
  induction pairs generalizing c p with
  | nil => simp [execLoop]
  | cons pr rest ih =>
    obtain ⟨t, o⟩ := pr
    simp only [execLoop, ih]
    cases rest with
    | nil =>
      simp only [List.isEmpty_nil, if_true, List.isEmpty_cons, List.length_cons,
        List.length_nil]
      push_cast
      ring
    | cons q qs =>
      simp only [List.isEmpty_cons, Bool.false_eq_true, if_false, List.length_cons]
      push_cast
      ring

/-- Progress after `k` of the workflow tasks equals `100·k/N`. -/
theorem progressAfter_eq (pairs : List (AgentTask × HandlerOutcome)) (k : Nat)
    (hk : k ≤ pairs.length) :
    progressAfter pairs k = 100 * (k : ℚ) / (pairs.length : ℚ) := by
  unfold progressAfter
  rw [execLoop_prog]
  cases k with
  | zero => simp
  | succ j =>
    have hne : (pairs.take (j + 1)).isEmpty = false := by
      cases pairs with
      | nil => simp at hk
      | cons a l => simp [List.take]
    rw [hne]
    simp only [List.length_take]
    rw [min_eq_left hk]
    push_cast
    ring

/-! ## Claims -/

/-- C9: scanning the JavaScript content consisting of a `var` declaration
line followed by a line with a loose equality and a console call emits
exactly two issues: an Outdated Syntax issue for line 1 with the
constant-binding substitution, and a Debug Code issue for line 2; the
Type Coercion rule does not fire since no line contains both the loose
equality and the loose inequality operator. -/
theorem c9_js_scan_two_issues :
    analyzeJsCode "var x = 5;\nif (x == 5) console.log(x);" =
      [{ type := "Outdated Syntax"
         line := 1
         code := "var x = 5;"
         issue := "Using \x27var\x27 instead of \x27let\x27 or \x27const\x27"
         fix := "const x = 5;"
         severity := "medium"
         rationale := "\x27let\x27 and \x27const\x27 have better scoping rules than \x27var\x27" },
       { type := "Debug Code"
         line := 2
         code := "if (x == 5) console.log(x);"
         issue := "Console.log statement found"
         fix := "Remove console.log or replace with proper logging"
         severity := "low"
         rationale := "Console statements should not remain in production code" }] := by
  decide

/-- C4: a non-empty input list (all of whose kinds route, which the input
type enumeration guarantees) plans one task per input plus the
documentation-search and fix-generation tasks; an empty input list plans
exactly the fix-generation task. -/
theorem c4_planner_task_count :
    (∀ inputs : List DebugInput, inputs ≠ [] →
      (planTasks inputs).length = inputs.length + 2) ∧
    (planTasks ([] : List DebugInput)).length = 1 := by
  constructor
  · intro inputs hne
    have hlen := planInputTasks_length inputs 1
    have hne2 : (planInputTasks inputs 1).1 ≠ [] := by
      intro hc
      rw [hc] at hlen
      exact hne (List.length_eq_zero.mp hlen.symm)
    have hemp : (planInputTasks inputs 1).1.isEmpty = false := by
      cases hcase : (planInputTasks inputs 1).1 with
      | nil => exact absurd hcase hne2
      | cons a l => rfl
    simp [planTasks, hemp, hlen]
  · decide

/-- Witness for C4: a singleton code input plans three tasks. -/
theorem c4_planner_task_count_witness :
    ([{ id := "i1", type := InputType.code, content := "x" }] : List DebugInput) ≠ [] ∧
      (planTasks [{ id := "i1", type := InputType.code, content := "x" }]).length =
        ([{ id := "i1", type := InputType.code, content := "x" }] : List DebugInput).length + 2 :=
  ⟨List.cons_ne_nil _ _,
    c4_planner_task_count.1 [{ id := "i1", type := InputType.code, content := "x" }]
      (List.cons_ne_nil _ _)⟩

/-- Every planned task list splits into a prefix free of fix-generation
tasks followed by the single fix-generation task. -/
theorem planTasks_split (inputs : List DebugInput) :
    ∃ pre k, planTasks inputs = pre ++ [mkTask k "fix-generator" "fix_generation"] ∧
      ∀ t ∈ pre, t.type ≠ "fix_generation" := by
  by_cases h : (planInputTasks inputs 1).1.isEmpty
  · refine ⟨(planInputTasks inputs 1).1, (planInputTasks inputs 1).2,
      by simp [planTasks, h], ?_⟩
    intro t ht
    rcases planInputTasks_type_mem inputs 1 t ht with h1 | h1 | h1 <;>
      rw [h1] <;> decide
  · refine ⟨(planInputTasks inputs 1).1 ++
        [mkTask (planInputTasks inputs 1).2 "doc-retriever" "documentation_search"],
      (planInputTasks inputs 1).2 + 1, by simp [planTasks, h], ?_⟩
    intro t ht
    rcases List.mem_append.1 ht with h1 | h1
    · rcases planInputTasks_type_mem inputs 1 t h1 with h2 | h2 | h2 <;>
        rw [h2] <;> decide
    · rw [List.mem_singleton.1 h1]
      show ("documentation_search" : String) ≠ "fix_generation"
      decide

/-- C5: for every input list the planned task list ends with the
fix-generation task, carried by the fix-generator agent, and no other
planned task has that type. -/
theorem c5_fix_generation_last (inputs : List DebugInput) :
    (∃ t, (planTasks inputs).getLast? = some t ∧
      t.type = "fix_generation" ∧ t.agentId = "fix-generator") ∧
    (planTasks inputs).countP (fun t => t.type == "fix_generation") = 1 := by
  obtain ⟨pre, k, heq, hpre⟩ := planTasks_split inputs
  constructor
  · exact ⟨mkTask k "fix-generator" "fix_generation",
      by rw [heq]; exact List.getLast?_concat _, rfl, rfl⟩
  · rw [heq, List.countP_append]
    have h1 : pre.countP (fun t => t.type == "fix_generation") = 0 := by
      rw [List.countP_eq_zero]
      intro a ha
      simpa using hpre a ha
    rw [h1]
    simp [List.countP_cons, mkTask]

/-- C6: the generative client adapter is total (it is a function) and its
value always has one of exactly three shapes: the decoded JSON value when
the 200-response text parses, the raw-text wrapper with the parsed=false
marker when it does not, and an error wrapper whose first entry carries an
error message (followed by whatever diagnostic detail was available) on
non-2xx status or transport failure. -/
theorem c6_adapter_result_trichotomy (parseJson : String → Option JVal) (o : ApiOutcome) :
    (∃ text v, o = ApiOutcome.httpOk text ∧ parseJson text = some v ∧
      callGeminiApi parseJson o = v) ∨
    (∃ text, o = ApiOutcome.httpOk text ∧ parseJson text = none ∧
      callGeminiApi parseJson o =
        JVal.obj [("raw_response", JVal.str text), ("parsed", JVal.bool false)]) ∨
    (∃ msg rest, callGeminiApi parseJson o = JVal.obj (("error", JVal.str msg) :: rest)) := by
  cases o with
  | httpOk text =>
    cases h : parseJson text with
    | some v =>
      exact Or.inl ⟨text, v, rfl, h, by simp [callGeminiApi, h]⟩
    | none =>
      exact Or.inr (Or.inl ⟨text, rfl, h, by simp [callGeminiApi, h]⟩)
  | httpErr status body =>
    exact Or.inr (Or.inr ⟨"API call failed: " ++ toString status,
      [("details", JVal.str body)], rfl⟩)
  | exn msg =>
    exact Or.inr (Or.inr ⟨"Failed to call Gemini API: " ++ msg, [], rfl⟩)

/-- C7: evaluation at a code-analysis result carrying one heuristic direct
issue and whose generative portion is a direct array holding one
well-formed issue object. The claim (and the dead branch of the source,
guarded by an unsatisfiable pair of isinstance checks) expects the direct
fact plus one array fact with confidence 85; the extractor returns only
the direct fact. The result does not depend on the abstracted raw-text
parser, which is never consulted here. -/
theorem c7_direct_array_yields_no_facts :
    extractCodeIssues (fun _ => [])
      (JVal.obj
        [("direct_issues", JVal.arr
           [JVal.obj
             [("type", JVal.str "Debug Code"),
              ("line", JVal.num 2),
              ("code", JVal.str "console.log(x);"),
              ("issue", JVal.str "Console.log statement found"),
              ("fix", JVal.str "Remove console.log or replace with proper logging"),
              ("severity", JVal.str "low"),
              ("rationale", JVal.str "Console statements should not remain in production code")]]),
         ("ai_analysis", JVal.arr
           [JVal.obj
             [("type", JVal.str "logic_error"),
              ("line", JVal.num 2),
              ("description", JVal.str "Loop bound is off by one"),
              ("original_code", JVal.str "i <= n"),
              ("fixed_code", JVal.str "i < n"),
              ("rationale", JVal.str "The last index is out of range"),
              ("severity", JVal.str "high")]]),
         ("analysis_type", JVal.str "code_review")]) =
      [{ category := "Debug Code"
         description := "Line 2: Console.log statement found"
         confidence := JVal.num 75
         code_snippet := some "console.log(x);"
         suggested_improvement := some "Remove console.log or replace with proper logging"
         rationale := "Console statements should not remain in production code"
         line_number := some (JVal.num 2)
         severity := some (JVal.str "low")
         steps := JVal.arr
           [JVal.str "Go to line 2 in your code",
            JVal.str "Replace: console.log(x);",
            JVal.str "With: Remove console.log or replace with proper logging",
            JVal.str "Test to ensure the change works correctly"] }] := rfl

/-- C1: evaluation of a workflow run in which every task fails. The claim
(and the spec invariant) expects the compiler to fall back to the single
AI Analysis Unavailable suggestion; instead the workflow completes with an
empty suggestion list, because the fallback stage is nested inside the
branch requiring at least one completed task result. -/
theorem c1_all_failed_completes_with_no_suggestions :
    (executeWorkflow (fun _ => []) exAllFailPairs).status = WorkflowStatus.completed ∧
    (executeWorkflow (fun _ => []) exAllFailPairs).suggestions = [] :=
  ⟨rfl, rfl⟩

/-- C3: after the executor has processed k of the N workflow tasks
(successes and failures alike) the progress equals 100·k/N, and progress
is monotonically non-decreasing over a single execution pass. -/
theorem c3_progress_formula_and_monotone (pairs : List (AgentTask × HandlerOutcome))
    (k k' : Nat) (hk : k ≤ pairs.length) (hk' : k' ≤ pairs.length) (hkk : k ≤ k') :
    progressAfter pairs k = 100 * (k : ℚ) / (pairs.length : ℚ) ∧
    progressAfter pairs k ≤ progressAfter pairs k' := by
  refine ⟨progressAfter_eq pairs k hk, ?_⟩
  rw [progressAfter_eq pairs k hk, progressAfter_eq pairs k' hk']
  have hkq : (k : ℚ) ≤ (k' : ℚ) := by exact_mod_cast hkk
  have h100 : (100 : ℚ) * k ≤ 100 * k' := by nlinarith
  exact div_le_div_of_nonneg_right h100 (by positivity)

/-- Witness for C3: after 1 of 2 tasks the progress is 50, no more than
the 100 reached after both. -/
theorem c3_progress_formula_and_monotone_witness :
    1 ≤ exPairs.length ∧
    progressAfter exPairs 1 = 100 * (1 : ℚ) / ((exPairs.length : Nat) : ℚ) :=
  ⟨by decide,
    (c3_progress_formula_and_monotone exPairs 1 2 (by decide) (by decide) (by decide)).1⟩

/-- C8: a raw-text result whose text mentions an error or exception
(case-insensitively) and that carries no structured error-type list yields
exactly the one generic Runtime Error fact with confidence 75; a
structured result yields one fact per error type whose confidence is 85
exactly when the index-aligned severity is high or critical and 70
otherwise, with missing severities defaulting to medium (hence confidence
70) and missing root causes to the Unknown cause rationale. -/
theorem c8_error_detail_confidences :
    (∀ (kvs : List (String × JVal)) (s : String),
      jlookup "error_types" kvs = none →
      jlookup "raw_response" kvs = some (JVal.str s) →
      (pyContains (pyLower s) "error" || pyContains (pyLower s) "exception") = true →
      extractErrorDetails (JVal.obj kvs) = [runtimeErrorFact] ∧
        runtimeErrorFact.type = JVal.str "Runtime Error" ∧
        runtimeErrorFact.confidence = 75) ∧
    (∀ (ets svs rcs : List JVal) (i : Nat), i < ets.length →
      (extractErrorDetails (mkErrAnalysis ets svs rcs)).length = ets.length ∧
      ∃ f, (extractErrorDetails (mkErrAnalysis ets svs rcs)).get? i = some f ∧
        f.confidence = (if (svs.getD i (JVal.str "medium")).strEq "critical" ||
            (svs.getD i (JVal.str "medium")).strEq "high" then 85 else 70) ∧
        (svs.length ≤ i → f.confidence = 70) ∧
        (rcs.length ≤ i → f.rationale = "Root cause: Unknown cause")) := by
  constructor
  · intro kvs s h1 h2 h3
    refine ⟨?_, rfl, rfl⟩
    simp [extractErrorDetails, h1, h2, h3]
  · intro ets svs rcs i hi
    have hE : extractErrorDetails (mkErrAnalysis ets svs rcs) =
        ets.enum.map fun p => errFactAt svs rcs p.1 p.2 := by
      simp [extractErrorDetails, mkErrAnalysis, jlookup]
    obtain ⟨et, het⟩ : ∃ et, ets.get? i = some et := ⟨_, List.get?_eq_get hi⟩
    refine ⟨by rw [hE]; simp, errFactAt svs rcs i et, ?_, rfl, ?_, ?_⟩
    · rw [hE, List.get?_map, List.get?_enum, het]
      rfl
    · intro h
      show (if (svs.getD i (JVal.str "medium")).strEq "critical" ||
          (svs.getD i (JVal.str "medium")).strEq "high" then (85 : Int) else 70) = 70
      rw [List.getD_eq_default _ _ h]
      rfl
    · intro h
      show "Root cause: " ++ pyStr (rcs.getD i (JVal.str "Unknown cause")) =
        "Root cause: Unknown cause"
      rw [List.getD_eq_default _ _ h]
      rfl

/-- Witness for C8: a raw-text error log yields the single Runtime Error
fact, and a structured result with a high severity yields confidence 85. -/
theorem c8_error_detail_confidences_witness :
    extractErrorDetails (JVal.obj [("raw_response",
        JVal.str "ERROR: TypeError: Cannot read property \x27length\x27 of undefined")]) =
      [runtimeErrorFact] ∧
    ∃ f, (extractErrorDetails
        (mkErrAnalysis [JVal.str "TypeError"] [JVal.str "high"] [])).get? 0 = some f ∧
      f.confidence = 85 ∧ f.rationale = "Root cause: Unknown cause" := by
  refine ⟨(c8_error_detail_confidences.1
      [("raw_response",
        JVal.str "ERROR: TypeError: Cannot read property \x27length\x27 of undefined")]
      "ERROR: TypeError: Cannot read property \x27length\x27 of undefined"
      rfl rfl (by decide)).1, ?_⟩
  obtain ⟨-, f, hf, hconf, -, hrc⟩ :=
    c8_error_detail_confidences.2 [JVal.str "TypeError"] [JVal.str "high"] [] 0 (by decide)
  exact ⟨f, hf, hconf.trans (by decide), hrc (by decide)⟩

/-- A successful prefix test exposes the first character of the scanned
list. -/
theorem startsWithL_cons_head {p : Char} {ps l : List Char}
    (h : startsWithL (p :: ps) l = true) : ∃ t, l = p :: t := by
  cases l with
  | nil => simp [startsWithL] at h
  | cons c cs =>
    simp only [startsWithL, Bool.and_eq_true, decide_eq_true_eq] at h
    exact ⟨cs, by rw [h.1]⟩

/-- A line whose stripped form starts with the function-definition keyword
and contains a colon emits exactly the missing-docstring issue when it is
the last line (so its following line is empty). -/
theorem pyLineIssues_def_last (n : Nat) (d : String)
    (h1 : pyStartsWith (pyStrip d) "def " = true)
    (h2 : pyContains d ":" = true) :
    pyLineIssues n d "" = [missingDocIssue n d] := by
  have h1' : startsWithL ('d' :: "ef ".data) (pyStrip d).data = true := h1
  obtain ⟨t, ht⟩ := startsWithL_cons_head h1'
  have ha : pyStartsWith (pyStrip d) "except:" = false := by
    show startsWithL "except:".data (pyStrip d).data = false
    rw [ht]
    rfl
  have hb : (pyStrip d == "except:") = false := by
    rw [beq_eq_false_iff_ne]
    intro hcontra
    rw [hcontra] at h1
    exact absurd h1 (by decide)
  have hp : pyStartsWith (pyStrip d) "print(" = false := by
    show startsWithL "print(".data (pyStrip d).data = false
    rw [ht]
    rfl
  simp only [pyLineIssues, ha, hb, hp, h1, h2, Bool.or_self, Bool.false_and,
    Bool.and_self, if_false, if_true, List.nil_append, List.append_nil,
    Bool.false_eq_true]
  rfl

/-- C10: for every Python source whose final line is a function definition
(stripped line starting with the definition keyword and containing a
colon), the Python code scanner emits the low-severity missing-docstring
Documentation issue for that line, because the nonexistent following line
is treated as the empty string, which is never a docstring opener. -/
theorem c10_trailing_def_missing_docstring (content d : String)
    (hlast : (pySplitLines content).getLast? = some d)
    (h1 : pyStartsWith (pyStrip d) "def " = true)
    (h2 : pyContains d ":" = true) :
    missingDocIssue (pySplitLines content).length d ∈ analyzePythonCode content := by
  have hne : pySplitLines content ≠ [] := by
    intro hc
    rw [hc] at hlast
    simp at hlast
  have hpos : 0 < (pySplitLines content).length := List.length_pos.mpr hne
  have hidx : (pySplitLines content).get? ((pySplitLines content).length - 1) = some d := by
    rw [← List.getLast?_eq_get?]
    exact hlast
  unfold analyzePythonCode analyzePythonLines
  refine List.mem_flatten.mpr
    ⟨pyLineIssues ((pySplitLines content).length - 1 + 1)
        ((pySplitLines content).getD ((pySplitLines content).length - 1) "")
        ((pySplitLines content).getD ((pySplitLines content).length - 1 + 1) ""),
      List.mem_map.mpr ⟨(pySplitLines content).length - 1,
        List.mem_range.mpr (by omega), rfl⟩, ?_⟩
  have hgetD : (pySplitLines content).getD ((pySplitLines content).length - 1) "" = d := by
    rw [List.getD_eq_getD_get?, hidx]
    rfl
  have hgetD2 : (pySplitLines content).getD ((pySplitLines content).length - 1 + 1) "" = "" :=
    List.getD_eq_default _ _ (by omega)
  rw [hgetD, hgetD2, pyLineIssues_def_last _ d h1 h2]
  have hn : (pySplitLines content).length - 1 + 1 = (pySplitLines content).length := by
    omega
  rw [hn]
  exact List.mem_singleton.mpr rfl

/-- Witness for C10: a one-line source consisting of a function definition
is flagged for the missing docstring. -/
theorem c10_trailing_def_missing_docstring_witness :
    (pySplitLines "def foo(x):").getLast? = some "def foo(x):" ∧
    pyStartsWith (pyStrip "def foo(x):") "def " = true ∧
    pyContains "def foo(x):" ":" = true ∧
    missingDocIssue (pySplitLines "def foo(x):").length "def foo(x):" ∈
      analyzePythonCode "def foo(x):" :=
  ⟨by decide, by decide, by decide,
    c10_trailing_def_missing_docstring "def foo(x):" "def foo(x):"
      (by decide) (by decide) (by decide)⟩

end DebugAssist
